import Mathlib

/-!
Shallow embedding of the Bybit Account Home Assistant integration
(`custom_components/bybit_account/`): the coordinator's rate-limit /
backoff state machine (`coordinator.py`) and the config-flow credential
validation (`config_flow.py`).

Python `dict[str, str]` payload items are modelled as association lists;
`dict.get` returns `Option String`.  Machine integers are `Nat`/`Int`
(Python ints are unbounded, so no wrap-around modelling is needed).
Logging calls, the `asyncio.sleep` backoff wait (pure time, no state
change) and the `last_update` timezone field are the only elisions.
-/

namespace Bybit

/-- Association-list model of a Python `dict[str, str]` payload item. -/
abbrev Entry := List (String × String)

/-- Python dict `d.get(k)`: `None` when the key is absent. -/
def dget (d : Entry) (k : String) : Option String :=
  (d.find? (fun kv => kv.1 == k)).map (fun kv => kv.2)

/-- Python dict `d.get(k, v)`: default `v` when the key is absent. -/
def dgetD (d : Entry) (k v : String) : String :=
  (dget d k).getD v

/-- Python string test `pat in s`: substring containment. -/
def containsSub (pat s : String) : Bool :=
  s.toList.tails.any (fun t => pat.toList.isPrefixOf t)

/-- Value of a digit string (most significant first); 0 on `[]`. -/
def digitsVal (l : List Char) : Nat :=
  l.foldl (fun a c => a * 10 + (c.toNat - 48)) 0

/-- Python `float()` on an unsigned decimal literal: an integer part,
optionally a dot and a fractional part, at least one digit in total.
The exact decimal value `ip.fp` is the rational
`(ip * 10 ^ |fp| + fp) / 10 ^ |fp|`, built with `mkRat`. -/
def pyFloatUnsigned? (l : List Char) : Option ℚ :=
  let ip := l.takeWhile (fun c => c ≠ '.')
  match l.dropWhile (fun c => c ≠ '.') with
  | [] =>
      if ip ≠ [] ∧ ip.all Char.isDigit then some (digitsVal ip) else none
  | _ :: fp =>
      if (ip ≠ [] ∨ fp ≠ []) ∧ ip.all Char.isDigit ∧ fp.all Char.isDigit then
        some (mkRat (digitsVal ip * 10 ^ fp.length + digitsVal fp) (10 ^ fp.length))
      else none

/-- Python `float(s)` restricted to decimal literals, `none` when
`float` would raise `ValueError` (e.g. on `""` or non-numeric text). -/
def pyFloat? (s : String) : Option ℚ :=
  match s.toList with
  | '-' :: rest => (pyFloatUnsigned? rest).map (fun q => -q)
  | '+' :: rest => pyFloatUnsigned? rest
  | l => pyFloatUnsigned? l

/-- A Bybit API body: `retCode` (absent key modelled as `none`),
`retMsg` (its `.get("retMsg", "")` default folded in) and
`result.list`. -/
structure ApiResponse where
  retCode : Option Int
  retMsg : String
  list : List Entry
deriving DecidableEq

/-- The two rate-limit response headers: `X-Bapi-Limit-Status` as read
by `int(...)` when present, and `X-Bapi-Limit` with its `'0'` default. -/
structure Headers where
  limitStatus : Option Int
  limit : Int
deriving DecidableEq

/-- The aggregated result dict returned by one successful cycle. -/
structure Snapshot where
  positions : List Entry
  balance : Entry
  total_unrealised_pnl : ℚ
deriving DecidableEq

/-- The coordinator's mutable fields: `scan_interval`,
`_backoff_delay`, `_consecutive_failures`, `_rate_limit_warnings`,
`_original_interval`, the Home Assistant `update_interval` (in
seconds), and the last published data. -/
structure CoordState where
  scan_interval : Nat
  backoff_delay : Nat
  consecutive_failures : Nat
  rate_limit_warnings : Nat
  original_interval : Nat
  update_interval : Nat
  data : Option Snapshot
deriving DecidableEq

/-- Constructor `__init__`: `scan_interval` from options, counters zero,
`_original_interval = scan_interval`, `update_interval` from
`timedelta(seconds=scan_interval)`, no data yet. -/
def initState (scan : Nat) : CoordState :=
  { scan_interval := scan
  , backoff_delay := 0
  , consecutive_failures := 0
  , rate_limit_warnings := 0
  , original_interval := scan
  , update_interval := scan
  , data := none }

/-- Method `update_scan_interval`: sets `scan_interval`, `_original_interval`
and `update_interval` to the new value. -/
def update_scan_interval (st : CoordState) (n : Nat) : CoordState :=
  { st with scan_interval := n, original_interval := n, update_interval := n }

/-- The rate-limit test of `_handle_rate_limit_error`:
`ret_code == 10006 or "Too many visits" in ret_msg`. -/
def exceededCheck (r : ApiResponse) : Bool :=
  r.retCode == some 10006 || containsSub "Too many visits" r.retMsg

/-- Method `_handle_rate_limit_error`: on a rate-limited response, increment
`_consecutive_failures`, set `_backoff_delay = min(2 ** failures, 60)`
and `update_interval = max(_original_interval * 4, 300)`; returns
whether the response was rate-limited. -/
def handle_rate_limit_error (st : CoordState) (r : ApiResponse) :
    CoordState × Bool :=
  if exceededCheck r then
    ({ st with consecutive_failures := st.consecutive_failures + 1
             , backoff_delay := min (2 ^ (st.consecutive_failures + 1)) 60
             , update_interval := max (st.original_interval * 4) 300 }, true)
  else (st, false)

/-- Method `_handle_rate_limit_response`: when the remaining-quota header is
present and below 10, count a warning and (below 5, with the interval
guard) widen `update_interval` to `min(_original_interval * 2, 300)`;
at or above 10, clear warnings and restore the interval when
`scan_interval != _original_interval`. -/
def handle_rate_limit_response (st : CoordState) (h : Headers) : CoordState :=
  match h.limitStatus with
  | none => st
  | some remaining =>
      if remaining < 10 then
        if remaining < 5 ∧ st.scan_interval < st.original_interval * 2 then
          { st with rate_limit_warnings := st.rate_limit_warnings + 1
                  , update_interval := min (st.original_interval * 2) 300 }
        else
          { st with rate_limit_warnings := st.rate_limit_warnings + 1 }
      else
        if st.rate_limit_warnings > 0 then
          if st.scan_interval ≠ st.original_interval then
            { st with rate_limit_warnings := 0
                    , update_interval := st.original_interval }
          else
            { st with rate_limit_warnings := 0 }
        else st

/-- Method `_reset_backoff_on_success`: when `_consecutive_failures > 0`,
zero the counters and restore the interval when
`scan_interval != _original_interval`. -/
def reset_backoff_on_success (st : CoordState) : CoordState :=
  if st.consecutive_failures > 0 then
    if st.scan_interval ≠ st.original_interval then
      { st with consecutive_failures := 0, backoff_delay := 0
              , update_interval := st.original_interval }
    else
      { st with consecutive_failures := 0, backoff_delay := 0 }
  else st

/-- Positions extraction in `_async_update_data`: the raw result list
when `retCode == 0`, else the empty list (logged, non-fatal). -/
def positionsOf (resp : ApiResponse) : List Entry :=
  if resp.retCode == some 0 then resp.list else []

/-- One position's contribution test in the USDT-entry search:
`item.get("coin") == "USDT"`. -/
def isUSDTEntry (d : Entry) : Bool :=
  dget d "coin" == some "USDT"

/-- Balance processing in `_async_update_data`: on `retCode == 0` and a
non-empty list, take the first entry whose `coin` is `USDT` (else `{}`)
and build the three-field summary; otherwise leave `balance_data = {}`. -/
def balance_data_of (resp : ApiResponse) : Entry :=
  if resp.retCode == some 0 then
    match resp.list with
    | [] => []
    | x :: xs =>
        let usdt := ((x :: xs).find? isUSDTEntry).getD []
        [("total_equity", dgetD usdt "totalEquity" "0"),
         ("available_balance", dgetD usdt "availableToWithdraw" "0"),
         ("wallet_balance", dgetD usdt "walletBalance" "0")]
  else []

/-- One iteration of the total-PnL loop of `_async_update_data`:
`float(position.get("unrealisedPnl", "0"))` added into the running
total, `ValueError`/`TypeError` skipping the position. -/
def pnlStep (acc : ℚ) (p : Entry) : ℚ :=
  match pyFloat? (dgetD p "unrealisedPnl" "0") with
  | some v => acc + v
  | none => acc

/-- The total-PnL loop of `_async_update_data`, starting from `0.0`. -/
def totalUnrealisedPnl (positions : List Entry) : ℚ :=
  positions.foldl pnlStep 0

/-- Outcome of one `hass.async_add_executor_job` call: the response, or
an exception message raised by the HTTP client. -/
inductive FetchResult where
  | ok (resp : ApiResponse)
  | exn (msg : String)
deriving DecidableEq

/-- Method `_async_update_data` on the two fetch outcomes of one cycle.
Returns the post-cycle state, the published result — `Except` error
strings are the final `UpdateFailed` messages, the inner
`raise UpdateFailed(...)` being caught by the catch-all
`except Exception` and re-wrapped — and whether the wallet-balance
call was issued. -/
def async_update_data (st : CoordState) (posF balF : FetchResult) :
    CoordState × Except String Snapshot × Bool :=
  match posF with
  | .exn msg =>
      (st, .error ("Error communicating with Bybit API: " ++ msg), false)
  | .ok posResp =>
      let pr := handle_rate_limit_error st posResp
      if pr.2 then
        (pr.1, .error ("Error communicating with Bybit API: " ++
          "Rate limit exceeded for positions request"), false)
      else
        match balF with
        | .exn msg =>
            (pr.1, .error ("Error communicating with Bybit API: " ++ msg), true)
        | .ok balResp =>
            let br := handle_rate_limit_error pr.1 balResp
            if br.2 then
              (br.1, .error ("Error communicating with Bybit API: " ++
                "Rate limit exceeded for balance request"), true)
            else
              let st3 := reset_backoff_on_success br.1
              let snap : Snapshot :=
                { positions := positionsOf posResp
                , balance := balance_data_of balResp
                , total_unrealised_pnl := totalUnrealisedPnl (positionsOf posResp) }
              ({ st3 with data := some snap }, .ok snap, true)

/-- The operations reachable on a live coordinator: an update cycle, or
a user reconfiguration through `update_scan_interval`. -/
inductive Event where
  | cycle (posF balF : FetchResult)
  | setInterval (n : Nat)
deriving DecidableEq

/-- One reachable coordinator transition. -/
def step (st : CoordState) (e : Event) : CoordState :=
  match e with
  | .cycle p b => (async_update_data st p b).1
  | .setInterval n => update_scan_interval st n

/-- A run of the coordinator from a state through a list of events. -/
def run (st : CoordState) (es : List Event) : CoordState :=
  es.foldl step st

/-- Function `validate_input` of `config_flow.py` on the outcome of the
`get_account_info` call (exception message, or the `retCode` of the
response).  The inner `raise InvalidAuth("Invalid API credentials")`
on a non-zero `retCode` is inside the `try`, so it reaches the
catch-all `except Exception as ex` and is reclassified by the
substring tests on `str(ex)`. -/
inductive ValidateError where
  | invalidAuth
  | cannotConnect
deriving DecidableEq

def validate_input (callResult : Except String (Option Int)) :
    Except ValidateError Unit :=
  let body : Except String Unit :=
    match callResult with
    | .error msg => .error msg
    | .ok code => if code ≠ some 0 then .error "Invalid API credentials" else .ok ()
  match body with
  | .ok _ => .ok ()
  | .error msg =>
      if containsSub "Invalid API key" msg || containsSub "Invalid signature" msg then
        .error .invalidAuth
      else
        .error .cannotConnect

/-- A rate-limited response body as in the spec's example:
`retCode=10006`, `retMsg="Too many visits!"`. -/
def rexample : ApiResponse :=
  { retCode := some 10006, retMsg := "Too many visits!", list := [] }

/-- A plain successful response body with no payload. -/
def okResp : ApiResponse :=
  { retCode := some 0, retMsg := "OK", list := [] }

/-- N consecutive rate-limited responses fed to
`_handle_rate_limit_error`. -/
def applyExceededN (st : CoordState) (r : ApiResponse) : Nat → CoordState
  | 0 => st
  | n + 1 => (handle_rate_limit_error (applyExceededN st r n) r).1

/-- Modelled from the spec's words for comparison with the code's loop:
the sum over all positions of the `unrealisedPnl` field parsed as a
number, a missing or non-numeric field contributing 0. -/
def specTotalPnl (positions : List Entry) : ℚ :=
  (positions.map (fun p => ((dget p "unrealisedPnl").bind pyFloat?).getD 0)).sum

/-- Whether a cycle result was published as data (`true`) or raised
`UpdateFailed` (`false`). -/
def cycleOk (r : Except String Snapshot) : Bool :=
  match r with
  | .ok _ => true
  | .error _ => false

/-- On a rate-limited response, `_handle_rate_limit_error` performs its
three state updates and reports a hit. -/
theorem handle_rate_limit_error_hit (st : CoordState) (r : ApiResponse)
    (h : exceededCheck r = true) :
    handle_rate_limit_error st r =
      ({ st with consecutive_failures := st.consecutive_failures + 1
               , backoff_delay := min (2 ^ (st.consecutive_failures + 1)) 60
               , update_interval := max (st.original_interval * 4) 300 }, true) := by
  simp [handle_rate_limit_error, h]

/-- On a non-rate-limited response, `_handle_rate_limit_error` leaves
the state unchanged and reports no hit. -/
theorem handle_rate_limit_error_miss (st : CoordState) (r : ApiResponse)
    (h : exceededCheck r = false) :
    handle_rate_limit_error st r = (st, false) := by
  simp [handle_rate_limit_error, h]

/-- Along a run of `_handle_rate_limit_error` hits, the failure counter
grows by one per hit and `_original_interval` never changes. -/
theorem applyExceededN_invariants (st : CoordState) (r : ApiResponse)
    (hr : exceededCheck r = true) :
    ∀ n : Nat,
      (applyExceededN st r n).consecutive_failures = st.consecutive_failures + n ∧
      (applyExceededN st r n).original_interval = st.original_interval := by
  intro n
  induction n with
  | zero => exact ⟨rfl, rfl⟩
  | succ k ih =>
      have h := handle_rate_limit_error_hit (applyExceededN st r k) r hr
      refine ⟨?_, ?_⟩
      · show ((handle_rate_limit_error (applyExceededN st r k) r).1).consecutive_failures = _
        rw [h]
        simp only []
        omega
      · show ((handle_rate_limit_error (applyExceededN st r k) r).1).original_interval = _
        rw [h]
        exact ih.2

/-- C1 (amended): starting from a state whose consecutive-failure count
is zero, after N ≥ 1 consecutive Exceeded responses (retCode 10006 or a
retMsg containing "Too many visits") through `_handle_rate_limit_error`,
the failure count is N, `_backoff_delay = min(2^N, 60)` and
`update_interval = max(_original_interval * 4, 300)`. -/
theorem C1_theorem (st : CoordState) (r : ApiResponse) (N : Nat)
    (hN : 0 < N) (h0 : st.consecutive_failures = 0)
    (hr : exceededCheck r = true) :
    (applyExceededN st r N).consecutive_failures = N ∧
    (applyExceededN st r N).backoff_delay = min (2 ^ N) 60 ∧
    (applyExceededN st r N).update_interval = max (st.original_interval * 4) 300 := by
  obtain ⟨k, rfl⟩ : ∃ k, N = k + 1 := ⟨N - 1, by omega⟩
  have hinv := applyExceededN_invariants st r hr k
  have h := handle_rate_limit_error_hit (applyExceededN st r k) r hr
  refine ⟨?_, ?_, ?_⟩
  · show ((handle_rate_limit_error (applyExceededN st r k) r).1).consecutive_failures = _
    rw [h]
    simp only []
    omega
  · show ((handle_rate_limit_error (applyExceededN st r k) r).1).backoff_delay = _
    rw [h]
    simp only []
    rw [hinv.1, h0, Nat.zero_add]
  · show ((handle_rate_limit_error (applyExceededN st r k) r).1).update_interval = _
    rw [h]
    simp only []
    rw [hinv.2]

/-- C1 as frozen is false: from a starting state that already has one
consecutive failure (itself produced by one Exceeded response from a
fresh 60-second coordinator), a single further Exceeded response yields
a failure count of 2 and a delay of min(2^2, 60) = 4, not 1 and
min(2^1, 60) = 2. -/
theorem C1_counterexample :
    exceededCheck rexample = true ∧
    ¬ ((applyExceededN ((handle_rate_limit_error (initState 60) rexample).1)
          rexample 1).consecutive_failures = 1 ∧
       (applyExceededN ((handle_rate_limit_error (initState 60) rexample).1)
          rexample 1).backoff_delay = min (2 ^ 1) 60) := by
  decide

/-- Witness for C1: the amended statement applied at a fresh 60-second
coordinator and N = 3. -/
theorem C1_witness :
    (0 < 3 ∧ (initState 60).consecutive_failures = 0 ∧
      exceededCheck rexample = true) ∧
    ((applyExceededN (initState 60) rexample 3).consecutive_failures = 3 ∧
     (applyExceededN (initState 60) rexample 3).backoff_delay = min (2 ^ 3) 60 ∧
     (applyExceededN (initState 60) rexample 3).update_interval =
       max ((initState 60).original_interval * 4) 300) :=
  ⟨⟨by decide, rfl, by decide⟩,
    C1_theorem (initState 60) rexample 3 (by decide) rfl (by decide)⟩

/-- C2 (amended): the invariant `original_interval ≤ update_interval`
is preserved by initialization, Exceeded handling, header handling
(Approaching widening and Normal restore), cycle-success reset and
interval reconfiguration, provided the configured original interval is
at most 300 seconds; the frozen claim over the full allowed range
(up to 3600) fails at the Approaching widening. -/
theorem C2_theorem (st : CoordState) (r : ApiResponse) (hd : Headers)
    (n m : Nat)
    (h1 : st.original_interval ≤ st.update_interval)
    (h2 : st.original_interval ≤ 300) :
    (initState n).original_interval ≤ (initState n).update_interval ∧
    ((handle_rate_limit_error st r).1).original_interval ≤
      ((handle_rate_limit_error st r).1).update_interval ∧
    (handle_rate_limit_response st hd).original_interval ≤
      (handle_rate_limit_response st hd).update_interval ∧
    (reset_backoff_on_success st).original_interval ≤
      (reset_backoff_on_success st).update_interval ∧
    (update_scan_interval st m).original_interval ≤
      (update_scan_interval st m).update_interval := by
  refine ⟨le_refl _, ?_, ?_, ?_, le_refl _⟩
  · unfold handle_rate_limit_error
    split <;> dsimp only <;> omega
  · simp only [handle_rate_limit_response]
    split
    · exact h1
    · split
      · split <;> dsimp only <;> omega
      · split
        · split <;> dsimp only <;> omega
        · exact h1
  · unfold reset_backoff_on_success
    split
    · split <;> dsimp only <;> omega
    · exact h1

/-- C2 as frozen is false: with the user-configured interval 3600
(inside the allowed 30–3600 range), one Approaching header with 4
remaining widens `update_interval` to min(7200, 300) = 300, which is
below `_original_interval = 3600`. -/
theorem C2_counterexample :
    (handle_rate_limit_response (initState 3600) ⟨some 4, 600⟩).original_interval
      = 3600 ∧
    (handle_rate_limit_response (initState 3600) ⟨some 4, 600⟩).update_interval
      = 300 ∧
    ¬ ((handle_rate_limit_response (initState 3600) ⟨some 4, 600⟩).original_interval ≤
        (handle_rate_limit_response (initState 3600) ⟨some 4, 600⟩).update_interval) := by
  decide

/-- Witness for C2: the amended statement applied at a fresh 60-second
coordinator. -/
theorem C2_witness :
    (initState 30).original_interval ≤ (initState 30).update_interval ∧
    ((handle_rate_limit_error (initState 60) rexample).1).original_interval ≤
      ((handle_rate_limit_error (initState 60) rexample).1).update_interval ∧
    (handle_rate_limit_response (initState 60) ⟨some 4, 120⟩).original_interval ≤
      (handle_rate_limit_response (initState 60) ⟨some 4, 120⟩).update_interval ∧
    (reset_backoff_on_success (initState 60)).original_interval ≤
      (reset_backoff_on_success (initState 60)).update_interval ∧
    (update_scan_interval (initState 60) 120).original_interval ≤
      (update_scan_interval (initState 60) 120).update_interval :=
  C2_theorem (initState 60) rexample ⟨some 4, 120⟩ 30 120 (by decide) (by decide)

/-- Neither branch of `_handle_rate_limit_error` touches
`_rate_limit_warnings`. -/
theorem handle_rate_limit_error_warnings (st : CoordState) (r : ApiResponse) :
    ((handle_rate_limit_error st r).1).rate_limit_warnings = st.rate_limit_warnings := by
  unfold handle_rate_limit_error
  split <;> rfl

/-- No branch of `_reset_backoff_on_success` touches
`_rate_limit_warnings`. -/
theorem reset_backoff_warnings (st : CoordState) :
    (reset_backoff_on_success st).rate_limit_warnings = st.rate_limit_warnings := by
  unfold reset_backoff_on_success
  split
  · split <;> rfl
  · rfl

/-- One update cycle never touches `_rate_limit_warnings`:
`_async_update_data` has no call to `_handle_rate_limit_response`. -/
theorem async_update_data_warnings (st : CoordState) (p b : FetchResult) :
    ((async_update_data st p b).1).rate_limit_warnings = st.rate_limit_warnings := by
  unfold async_update_data
  cases p with
  | exn m => rfl
  | ok posResp =>
      dsimp only
      split
      · exact handle_rate_limit_error_warnings st posResp
      · cases b with
        | exn m => exact handle_rate_limit_error_warnings st posResp
        | ok balResp =>
            dsimp only
            split
            · rw [handle_rate_limit_error_warnings, handle_rate_limit_error_warnings]
            · show (reset_backoff_on_success _).rate_limit_warnings = _
              rw [reset_backoff_warnings, handle_rate_limit_error_warnings,
                handle_rate_limit_error_warnings]

/-- A whole run never changes `_rate_limit_warnings`. -/
theorem run_warnings (es : List Event) :
    ∀ st : CoordState, (run st es).rate_limit_warnings = st.rate_limit_warnings := by
  induction es with
  | nil => intro st; rfl
  | cons e es ih =>
      intro st
      show (run (step st e) es).rate_limit_warnings = _
      rw [ih]
      cases e with
      | cycle p b => exact async_update_data_warnings st p b
      | setInterval n => rfl

/-- C3: for every reachable coordinator state — initialization followed
by any sequence of update cycles and `update_scan_interval` calls —
`_rate_limit_warnings` is 0 and no Approaching-triggered widening ever
occurs, because `_handle_rate_limit_response` has no call site in the
update path. -/
theorem C3_theorem (scan : Nat) (es : List Event) :
    (run (initState scan) es).rate_limit_warnings = 0 := by
  rw [run_warnings es (initState scan)]
  rfl

/-- On a rate-limited response the new `_backoff_delay` is positive. -/
theorem handle_rate_limit_error_hit_delay_pos (st : CoordState) (r : ApiResponse)
    (h : exceededCheck r = true) :
    0 < ((handle_rate_limit_error st r).1).backoff_delay := by
  rw [handle_rate_limit_error_hit st r h]
  dsimp only
  exact lt_min (pow_pos (by norm_num) _) (by norm_num)

/-- Under the invariant that a zero failure count forces a zero delay,
`_reset_backoff_on_success` always leaves `_backoff_delay = 0`. -/
theorem reset_backoff_delay (st : CoordState)
    (h : st.consecutive_failures = 0 → st.backoff_delay = 0) :
    (reset_backoff_on_success st).backoff_delay = 0 := by
  unfold reset_backoff_on_success
  split
  · split <;> rfl
  · rename_i hcf
    exact h (by omega)

/-- One transition preserves the delay/failure-count linkage: whenever
the failure count is zero, the pending delay is zero. -/
theorem step_cf_delay (st : CoordState) (e : Event)
    (h : st.consecutive_failures = 0 → st.backoff_delay = 0) :
    (step st e).consecutive_failures = 0 → (step st e).backoff_delay = 0 := by
  cases e with
  | setInterval n => exact h
  | cycle p b =>
      cases p with
      | exn m => exact h
      | ok posResp =>
          by_cases hc1 : exceededCheck posResp = true
          · have hp := handle_rate_limit_error_hit st posResp hc1
            intro hcf
            exfalso
            revert hcf
            simp [step, async_update_data, hp]
          · have hp := handle_rate_limit_error_miss st posResp (by simpa using hc1)
            cases b with
            | exn m =>
                intro hcf
                simp only [step, async_update_data, hp] at hcf ⊢
                exact h hcf
            | ok balResp =>
                by_cases hc2 : exceededCheck balResp = true
                · have hb := handle_rate_limit_error_hit st balResp hc2
                  intro hcf
                  exfalso
                  revert hcf
                  simp [step, async_update_data, hp, hb]
                · have hb := handle_rate_limit_error_miss st balResp (by simpa using hc2)
                  intro hcf
                  simp only [step, async_update_data, hp, hb]
                  exact reset_backoff_delay st h

/-- The delay/failure-count linkage holds along every run. -/
theorem run_cf_delay (es : List Event) :
    ∀ st : CoordState, (st.consecutive_failures = 0 → st.backoff_delay = 0) →
      ((run st es).consecutive_failures = 0 → (run st es).backoff_delay = 0) := by
  induction es with
  | nil => intro st h; exact h
  | cons e es ih =>
      intro st h
      show (run (step st e) es).consecutive_failures = 0 → _
      exact ih (step st e) (step_cf_delay st e h)

/-- On a state with a positive delay and failure count, one cycle ends
with delay 0 exactly when it succeeds, and a positive delay when it
fails. -/
theorem async_update_data_delay (st : CoordState) (p b : FetchResult)
    (hd : 0 < st.backoff_delay) (hcf : 0 < st.consecutive_failures) :
    (cycleOk (async_update_data st p b).2.1 = true →
      ((async_update_data st p b).1).backoff_delay = 0) ∧
    (cycleOk (async_update_data st p b).2.1 = false →
      0 < ((async_update_data st p b).1).backoff_delay) := by
  cases p with
  | exn m =>
      refine ⟨fun hok => ?_, fun _ => hd⟩
      simp [async_update_data, cycleOk] at hok
  | ok posResp =>
      by_cases hc1 : exceededCheck posResp = true
      · have hp := handle_rate_limit_error_hit st posResp hc1
        refine ⟨fun hok => ?_, fun _ => ?_⟩
        · exfalso
          revert hok
          simp [async_update_data, hp, cycleOk]
        · simp [async_update_data, hp]
      · have hp := handle_rate_limit_error_miss st posResp (by simpa using hc1)
        cases b with
        | exn m =>
            refine ⟨fun hok => ?_, fun _ => ?_⟩
            · exfalso
              revert hok
              simp [async_update_data, hp, cycleOk]
            · simpa [async_update_data, hp] using hd
        | ok balResp =>
            by_cases hc2 : exceededCheck balResp = true
            · have hb := handle_rate_limit_error_hit st balResp hc2
              refine ⟨fun hok => ?_, fun _ => ?_⟩
              · exfalso
                revert hok
                simp [async_update_data, hp, hb, cycleOk]
              · simp [async_update_data, hp, hb]
            · have hb := handle_rate_limit_error_miss st balResp (by simpa using hc2)
              refine ⟨fun _ => ?_, fun herr => ?_⟩
              · simp only [async_update_data, hp, hb]
                exact reset_backoff_delay st (fun _ => by omega)
              · exfalso
                revert herr
                simp [async_update_data, hp, hb, cycleOk]

/-- C5 (amended): on every reachable state with a positive pending
delay, the next fetch attempt resets `_backoff_delay` to 0 exactly when
it succeeds; a failed attempt leaves a positive delay (the frozen
claim's "success or failure" is false on the failure side). -/
theorem C5_theorem (scan : Nat) (es : List Event) (p b : FetchResult)
    (h : 0 < (run (initState scan) es).backoff_delay) :
    (cycleOk (async_update_data (run (initState scan) es) p b).2.1 = true →
      ((async_update_data (run (initState scan) es) p b).1).backoff_delay = 0) ∧
    (cycleOk (async_update_data (run (initState scan) es) p b).2.1 = false →
      0 < ((async_update_data (run (initState scan) es) p b).1).backoff_delay) := by
  have hinv := run_cf_delay es (initState scan) (fun _ => rfl)
  have hcf : 0 < (run (initState scan) es).consecutive_failures := by
    by_contra hcontra
    have h0 : (run (initState scan) es).consecutive_failures = 0 := by omega
    have := hinv h0
    omega
  exact async_update_data_delay (run (initState scan) es) p b h hcf

/-- C5 as frozen is false: after one rate-limited cycle the pending
delay is 2 > 0, and a second rate-limited fetch attempt ends with
`_backoff_delay = 4`, not 0 — only success resets it. -/
theorem C5_counterexample :
    0 < (run (initState 60) [.cycle (.ok rexample) (.ok okResp)]).backoff_delay ∧
    cycleOk (async_update_data (run (initState 60) [.cycle (.ok rexample) (.ok okResp)])
      (.ok rexample) (.ok okResp)).2.1 = false ∧
    (async_update_data (run (initState 60) [.cycle (.ok rexample) (.ok okResp)])
      (.ok rexample) (.ok okResp)).1.backoff_delay = 4 := by
  decide

/-- Witness for C5: the amended statement applied after one
rate-limited cycle of a fresh 60-second coordinator. -/
theorem C5_witness :
    (cycleOk (async_update_data (run (initState 60) [.cycle (.ok rexample) (.ok okResp)])
        (.ok okResp) (.ok okResp)).2.1 = true →
      ((async_update_data (run (initState 60) [.cycle (.ok rexample) (.ok okResp)])
        (.ok okResp) (.ok okResp)).1).backoff_delay = 0) ∧
    (cycleOk (async_update_data (run (initState 60) [.cycle (.ok rexample) (.ok okResp)])
        (.ok okResp) (.ok okResp)).2.1 = false →
      0 < ((async_update_data (run (initState 60) [.cycle (.ok rexample) (.ok okResp)])
        (.ok okResp) (.ok okResp)).1).backoff_delay) :=
  C5_theorem 60 [.cycle (.ok rexample) (.ok okResp)] (.ok okResp) (.ok okResp) (by decide)

/-- C6: on a positions response with retCode 10006 and retMsg
"Too many visits!", the cycle fails with the rate-limit-classified
`UpdateFailed`, the wallet-balance call is never issued, and the
previously published data is unchanged. -/
theorem C6_theorem (st : CoordState) (posResp : ApiResponse) (balF : FetchResult)
    (h1 : posResp.retCode = some 10006)
    (_h2 : posResp.retMsg = "Too many visits!") :
    (async_update_data st (.ok posResp) balF).2.1 =
      .error "Error communicating with Bybit API: Rate limit exceeded for positions request" ∧
    (async_update_data st (.ok posResp) balF).2.2 = false ∧
    ((async_update_data st (.ok posResp) balF).1).data = st.data := by
  have hc : exceededCheck posResp = true := by
    simp [exceededCheck, h1]
  have hp := handle_rate_limit_error_hit st posResp hc
  have hs : "Error communicating with Bybit API: " ++
      "Rate limit exceeded for positions request" =
      "Error communicating with Bybit API: Rate limit exceeded for positions request" := rfl
  refine ⟨?_, ?_, ?_⟩ <;> simp [async_update_data, hp, hs]

/-- Witness for C6: the theorem applied to a fresh 60-second
coordinator and the spec's example response. -/
theorem C6_witness :
    (rexample.retCode = some 10006 ∧ rexample.retMsg = "Too many visits!") ∧
    ((async_update_data (initState 60) (.ok rexample) (.ok okResp)).2.1 =
        .error "Error communicating with Bybit API: Rate limit exceeded for positions request" ∧
      (async_update_data (initState 60) (.ok rexample) (.ok okResp)).2.2 = false ∧
      ((async_update_data (initState 60) (.ok rexample) (.ok okResp)).1).data =
        (initState 60).data) :=
  ⟨⟨rfl, rfl⟩, C6_theorem (initState 60) rexample (.ok okResp) rfl rfl⟩

/-- C4: the code resets `_rate_limit_warnings` to 0 on a Normal header
(remaining ≥ 10), but does not restore the widened interval: after an
Approaching header (4 remaining) widened `update_interval` of a fresh
60-second coordinator to 120, a Normal header (50 remaining) leaves
`update_interval` at 120 instead of restoring 60, because the restore
guard compares `scan_interval` (never widened) with
`_original_interval`. -/
theorem C4_theorem :
    (handle_rate_limit_response (initState 60) ⟨some 4, 120⟩).rate_limit_warnings
      = 1 ∧
    (handle_rate_limit_response (initState 60) ⟨some 4, 120⟩).update_interval
      = 120 ∧
    (handle_rate_limit_response
        (handle_rate_limit_response (initState 60) ⟨some 4, 120⟩)
        ⟨some 50, 120⟩).rate_limit_warnings = 0 ∧
    (handle_rate_limit_response
        (handle_rate_limit_response (initState 60) ⟨some 4, 120⟩)
        ⟨some 50, 120⟩).update_interval = 120 ∧
    (handle_rate_limit_response
        (handle_rate_limit_response (initState 60) ⟨some 4, 120⟩)
        ⟨some 50, 120⟩).original_interval = 60 := by
  decide

/-- C7: `update_scan_interval` sets `_original_interval`,
`update_interval` and `scan_interval` to the new value immediately,
discarding any in-flight widening. -/
theorem C7_theorem (st : CoordState) (n : Nat) :
    (update_scan_interval st n).original_interval = n ∧
    (update_scan_interval st n).update_interval = n ∧
    (update_scan_interval st n).scan_interval = n :=
  ⟨rfl, rfl, rfl⟩

/-- C9: credential validation succeeds exactly on retCode 0, but a
non-zero retCode is classified as CannotConnect, not InvalidAuth: the
inner `raise InvalidAuth("Invalid API credentials")` is caught by the
catch-all `except` and its message matches neither "Invalid API key"
nor "Invalid signature", so it is re-raised as CannotConnect.
Exception messages carrying those substrings do map to InvalidAuth. -/
theorem C9_theorem :
    validate_input (.ok (some 10001)) = .error .cannotConnect ∧
    validate_input (.ok (some 0)) = .ok () ∧
    validate_input (.error "request failed: Invalid API key") = .error .invalidAuth ∧
    validate_input (.error "request failed: Invalid signature") = .error .invalidAuth ∧
    validate_input (.error "connection timed out") = .error .cannotConnect :=
  ⟨rfl, rfl, rfl, rfl, rfl⟩

/-- One loop iteration adds exactly the position's parsed-or-zero
contribution. -/
theorem pnlStep_eq (a : ℚ) (p : Entry) :
    pnlStep a p = a + ((dget p "unrealisedPnl").bind pyFloat?).getD 0 := by
  have h0 : pyFloat? "0" = some 0 := by decide
  unfold pnlStep dgetD
  cases hv : dget p "unrealisedPnl" with
  | none => simp [hv, h0]
  | some s =>
      cases hw : pyFloat? s with
      | none => simp [hv, hw]
      | some v => simp [hv, hw]

/-- The total-PnL fold from any accumulator adds the spec's sum. -/
theorem totalPnl_foldl (ps : List Entry) :
    ∀ a : ℚ, ps.foldl pnlStep a = a + specTotalPnl ps := by
  induction ps with
  | nil => intro a; simp [specTotalPnl]
  | cons p ps ih =>
      intro a
      show List.foldl pnlStep (pnlStep a p) ps = _
      rw [ih (pnlStep a p), pnlStep_eq]
      simp [specTotalPnl]
      ring

/-- C8: the coordinator's total-PnL loop computes, for every positions
list, the sum of the positions' `unrealisedPnl` fields parsed as
numbers with missing or non-numeric fields contributing 0; on the
spec's two-position example the total is 12.5 (`mkRat 25 2`). -/
theorem C8_theorem :
    (∀ ps : List Entry, totalUnrealisedPnl ps = specTotalPnl ps) ∧
    totalUnrealisedPnl
      [[("symbol", "BTCUSDT"), ("unrealisedPnl", "12.5")],
       [("symbol", "ETHUSDT"), ("unrealisedPnl", "")]] = mkRat 25 2 := by
  constructor
  · intro ps
    unfold totalUnrealisedPnl
    rw [totalPnl_foldl ps 0, zero_add]
  · have h : totalUnrealisedPnl
        [[("symbol", "BTCUSDT"), ("unrealisedPnl", "12.5")],
         [("symbol", "ETHUSDT"), ("unrealisedPnl", "")]] = (0 : ℚ) + mkRat 125 10 := rfl
    rw [h, zero_add]
    decide

/-- C10: on a wallet-balance response with retCode 0, the summary maps
the first USDT entry's `totalEquity`, `availableToWithdraw` and
`walletBalance` (each defaulting to "0") onto `total_equity`,
`available_balance` and `wallet_balance`; with no matching entry the
summary is `{}` (empty list) or all-"0", and the cycle still
succeeds. -/
theorem C10_theorem (resp : ApiResponse) (entry : Entry)
    (h0 : resp.retCode = some 0) :
    (resp.list.find? isUSDTEntry = some entry →
      balance_data_of resp =
        [("total_equity", dgetD entry "totalEquity" "0"),
         ("available_balance", dgetD entry "availableToWithdraw" "0"),
         ("wallet_balance", dgetD entry "walletBalance" "0")]) ∧
    (resp.list.find? isUSDTEntry = none →
      balance_data_of resp = [] ∨
      balance_data_of resp =
        [("total_equity", "0"), ("available_balance", "0"), ("wallet_balance", "0")]) ∧
    (∀ (st : CoordState) (posResp : ApiResponse),
      exceededCheck posResp = false → exceededCheck resp = false →
      (async_update_data st (.ok posResp) (.ok resp)).2.1 =
        .ok { positions := positionsOf posResp
            , balance := balance_data_of resp
            , total_unrealised_pnl := totalUnrealisedPnl (positionsOf posResp) }) := by
  refine ⟨?_, ?_, ?_⟩
  · intro hfind
    unfold balance_data_of
    rw [h0]
    cases hl : resp.list with
    | nil =>
        rw [hl] at hfind
        simp at hfind
    | cons x xs =>
        rw [hl] at hfind
        simp [hfind]
  · intro hfind
    cases hl : resp.list with
    | nil =>
        left
        unfold balance_data_of
        rw [h0, hl]
        simp
    | cons x xs =>
        right
        unfold balance_data_of
        rw [h0, hl]
        rw [hl] at hfind
        simp [hfind, dgetD, dget]
  · intro st posResp hpos hbal
    have hp := handle_rate_limit_error_miss st posResp hpos
    have hb := handle_rate_limit_error_miss st resp hbal
    simp [async_update_data, hp, hb]

/-- Witness for C10: the theorem applied to the spec's one-entry USDT
balance response, yielding the 1000.0/800.0/900.0 summary. -/
theorem C10_witness :
    balance_data_of
      { retCode := some 0, retMsg := ""
      , list := [[("coin", "USDT"), ("totalEquity", "1000.0"),
                  ("availableToWithdraw", "800.0"), ("walletBalance", "900.0")]] } =
      [("total_equity", "1000.0"), ("available_balance", "800.0"),
       ("wallet_balance", "900.0")] :=
  ((C10_theorem
      { retCode := some 0, retMsg := ""
      , list := [[("coin", "USDT"), ("totalEquity", "1000.0"),
                  ("availableToWithdraw", "800.0"), ("walletBalance", "900.0")]] }
      [("coin", "USDT"), ("totalEquity", "1000.0"),
       ("availableToWithdraw", "800.0"), ("walletBalance", "900.0")]
      rfl).1 (by decide)).trans (by decide)

end Bybit
